import Mathlib

/-!
Shallow embedding of the MissionControl backend (Rust/axum/mongodb), covering
the request-authorization chain, the tri-state partial-update protocol, the
token codec, and the task/admin handlers that the specification describes.

Conventions of the embedding:
* BSON/JSON documents are modelled by the inductive `Json`; an object is an
  association list of key/value pairs and key lookup takes the first binding.
* Timestamps (`chrono::DateTime<Utc>`) are modelled as `Nat` seconds.
* The MongoDB collection is modelled as a `List` of entities; the atomic
  `find_one_and_update` becomes find-then-functionally-update, and handler
  functions return the post-operation store next to the response value.
* Fallible Rust code returning `AppResult<T>` becomes `Except AppError T`.
* The password-hashing primitives (argon2) and the JWT signature are opaque
  cryptography; they are modelled by explicit function parameters
  (hashing / parsing / verifying) and by a token that records the secret it
  was signed with, respectively.
-/

namespace MissionControl

/-- Model of a JSON (and BSON) value, as far as the handlers decode it. -/
inductive Json where
  | null : Json
  | str : String → Json
  | num : Int → Json
  | boolean : Bool → Json
  | arr : List Json → Json
  | obj : List (String × Json) → Json
deriving Repr

/-- First binding of a key in a JSON object body (serde reads the first). -/
def lookupField (fields : List (String × Json)) (k : String) : Option Json :=
  (fields.find? (fun p => p.1 == k)).map (fun p => p.2)

/-- Mirror of `AppError` in src/backend/src/errors.rs. The payload of
`Internal` / `Database` is reduced to a message string. -/
inductive AppError where
  | NotFound : AppError
  | Unauthorized : AppError
  | Forbidden : AppError
  | BadRequest : String → AppError
  | Conflict : String → AppError
  | Internal : String → AppError
  | Database : String → AppError
deriving Repr, DecidableEq

/-- HTTP status produced by `impl IntoResponse for AppError` (errors.rs). -/
def AppError.statusCode : AppError → Nat
  | .NotFound => 404
  | .Unauthorized => 401
  | .Forbidden => 403
  | .BadRequest _ => 400
  | .Conflict _ => 409
  | .Internal _ => 500
  | .Database _ => 500

/-- Mirror of `CtiSelection` in src/backend/src/models/cti.rs. -/
structure CtiSelection where
  category_id : String
  type_id : String
  item_id : String
deriving Repr, DecidableEq

/-- Mirror of `TaskNote` in src/backend/src/models/task.rs. -/
structure TaskNote where
  id : String
  note : String
  author : String
  created_at : Nat
deriving Repr, DecidableEq

/-- Mirror of `Task` in src/backend/src/models/task.rs. -/
structure Task where
  id : String
  title : String
  description : String
  status : String
  notes : List TaskNote
  assignee_id : Option String
  cti : Option CtiSelection
  created_at : Nat
  updated_at : Nat
deriving Repr, DecidableEq

/-- Mirror of `Task::new`: fresh id is passed explicitly (Uuid::new_v4). -/
def Task.new (id : String) (now : Nat) (title description : String) : Task :=
  { id := id, title := title, description := description, status := "todo",
    notes := [], assignee_id := none, cti := none,
    created_at := now, updated_at := now }

/-- Mirror of `User` in src/backend/src/models/user.rs. -/
structure User where
  id : String
  email : String
  username : String
  password_hash : String
  role : String
  created_at : Nat
  updated_at : Nat
deriving Repr, DecidableEq

/-- Mirror of `User::new`: every freshly registered account gets role
`"user"`; the id (Uuid::new_v4) and clock are passed explicitly. -/
def User.new (id : String) (now : Nat)
    (email username password_hash : String) : User :=
  { id := id, email := email, username := username,
    password_hash := password_hash, role := "user",
    created_at := now, updated_at := now }

/-- Mirror of `UserPublic` (models/user.rs): the outward view of an account,
with no password hash. -/
structure UserPublic where
  id : String
  email : String
  username : String
  role : String
  created_at : Nat
deriving Repr, DecidableEq

/-- Mirror of `impl From<User> for UserPublic`. -/
def UserPublic.ofUser (u : User) : UserPublic :=
  { id := u.id, email := u.email, username := u.username, role := u.role,
    created_at := u.created_at }

/-- Mirror of `Claims` in src/backend/src/handlers/auth.rs. -/
structure Claims where
  sub : String
  email : String
  role : String
  exp : Nat
deriving Repr, DecidableEq

/-! ### Decoding of request bodies (serde model)

Serde deserialization of the request structs is embedded as functions from a
JSON object body (a list of key/value pairs) to `Except String` of the struct.
Unknown keys are ignored, as serde does by default. -/

/-- Decode a JSON value as a string (`String` field in serde). -/
def asString : Json → Except String String
  | Json.str s => Except.ok s
  | _ => Except.error ("invalid type: expected a string")

/-- Serde decoding of `Option<T>`: `null` decodes to `None`, any other value
is decoded by the inner decoder. -/
def deserializeOption (dec : Json → Except String α) (j : Json) :
    Except String (Option α) :=
  match j with
  | Json.null => Except.ok none
  | j => (dec j).map some

/-- Mirror of `optional_nullable` in src/backend/src/handlers/tasks.rs:
wraps a present field (even if null) in `Some`, so that combined with
`#[serde(default)]` the decode distinguishes absent / null / value. -/
def optional_nullable (dec : Json → Except String α) (j : Json) :
    Except String (Option (Option α)) :=
  (deserializeOption dec j).map some

/-- Decode of a plain `Option<String>` field of a serde struct: an absent key
and an explicit `null` both decode to `none`. -/
def decodePlainOptString (fields : List (String × Json)) (k : String) :
    Except String (Option String) :=
  match lookupField fields k with
  | none => Except.ok none
  | some j => deserializeOption asString j

/-- Decode of a field carrying `#[serde(default, deserialize_with =
"optional_nullable")]`: absent key falls back to the default `None`; a
present key goes through `optional_nullable`. -/
def decodeTriState (dec : Json → Except String α)
    (fields : List (String × Json)) (k : String) :
    Except String (Option (Option α)) :=
  match lookupField fields k with
  | none => Except.ok none
  | some j => optional_nullable dec j

/-- Serde decode of `CtiSelection` (derive(Deserialize)): three required
string fields; a missing or ill-typed sub-key fails the decode. -/
def decodeCtiSelection : Json → Except String CtiSelection
  | Json.obj fields => do
    let c ← match lookupField fields "category_id" with
      | some j => asString j
      | none => Except.error ("missing field category_id")
    let t ← match lookupField fields "type_id" with
      | some j => asString j
      | none => Except.error ("missing field type_id")
    let i ← match lookupField fields "item_id" with
      | some j => asString j
      | none => Except.error ("missing field item_id")
    Except.ok { category_id := c, type_id := t, item_id := i }
  | _ => Except.error ("invalid type: expected an object")

/-- Mirror of `UpdateTaskRequest` in src/backend/src/handlers/tasks.rs:
plain optional scalars plus two tri-state nullable-reference fields. -/
structure UpdateTaskRequest where
  title : Option String
  description : Option String
  status : Option String
  assignee_id : Option (Option String)
  cti : Option (Option CtiSelection)
deriving Repr, DecidableEq

/-- Serde decode of `UpdateTaskRequest` from a JSON object body. -/
def decodeUpdateTaskRequest (fields : List (String × Json)) :
    Except String UpdateTaskRequest := do
  let title ← decodePlainOptString fields "title"
  let description ← decodePlainOptString fields "description"
  let status ← decodePlainOptString fields "status"
  let assignee_id ← decodeTriState asString fields "assignee_id"
  let cti ← decodeTriState decodeCtiSelection fields "cti"
  Except.ok { title := title, description := description, status := status,
              assignee_id := assignee_id, cti := cti }

/-! ### Token codec (handlers/auth.rs `mint_token`, middleware/auth.rs)

A JWT is modelled as its decoded claims together with the secret that signed
it; signature verification is then equality of secrets.  Decoding uses the
`jsonwebtoken` crate with `Validation::default()`, whose default expiry
leeway is 60 seconds: a token is rejected as expired exactly when
`exp < now - leeway`. -/

/-- Model of a signed JWT: the claims plus the signing secret (standing in
for the HMAC signature). -/
structure Token where
  claims : Claims
  secret : String
deriving Repr, DecidableEq

/-- Mirror of `mint_token` (handlers/auth.rs): claims copy the account id,
email and role, and `exp = now + 24h` in seconds. -/
def mint_token (u : User) (secret : String) (now : Nat) : Token :=
  { claims := { sub := u.id, email := u.email, role := u.role,
                exp := now + 24 * 3600 },
    secret := secret }

/-- Default expiry leeway of `jsonwebtoken::Validation::default()`, in
seconds. -/
def defaultLeeway : Nat := 60

/-- Model of `jsonwebtoken::decode::<Claims>` with `Validation::default()`:
rejects a wrong signature, and rejects expiry when `exp < now - leeway`
(equivalently `exp + leeway < now` over the naturals). -/
def decodeToken (tok : Token) (secret : String) (now : Nat) (leeway : Nat) :
    Except String Claims :=
  if tok.secret ≠ secret then Except.error ("InvalidSignature")
  else if tok.claims.exp + leeway < now then Except.error ("ExpiredSignature")
  else Except.ok tok.claims

/-! ### Authorization chain (middleware/auth.rs, middleware/admin.rs,
routes/mod.rs) -/

/-- The `Authorization` header of a request: either not a well-formed
`Bearer <token>` header, or a bearer token. -/
inductive AuthHeader where
  | malformed : AuthHeader
  | bearer : Token → AuthHeader
deriving Repr, DecidableEq

/-- Model of an incoming request as the middleware sees it: the optional
`Authorization` header and the `Claims` extension attached by
`require_auth`. -/
structure Request where
  auth_header : Option AuthHeader
  claims_ext : Option Claims
deriving Repr, DecidableEq

/-- Mirror of `require_auth` (middleware/auth.rs): a missing or malformed
header is `Unauthorized`; a bearer token is decoded with the process secret
and `Validation::default()`, any decode failure mapped to `Unauthorized`;
on success the claims are attached to the request extensions. -/
def require_auth (secret : String) (now : Nat) (req : Request) :
    Except AppError Request :=
  match req.auth_header with
  | none => Except.error AppError.Unauthorized
  | some AuthHeader.malformed => Except.error AppError.Unauthorized
  | some (AuthHeader.bearer tok) =>
    match decodeToken tok secret now defaultLeeway with
    | Except.error _ => Except.error AppError.Unauthorized
    | Except.ok claims => Except.ok { req with claims_ext := some claims }

/-- Mirror of `require_admin` (middleware/admin.rs): missing `Claims` in the
extensions is answered `Unauthorized` (defensive wiring check); a non-admin
role is `Forbidden`. -/
def require_admin (req : Request) : Except AppError Request :=
  match req.claims_ext with
  | none => Except.error AppError.Unauthorized
  | some claims =>
    if claims.role ≠ "admin" then Except.error AppError.Forbidden
    else Except.ok req

/-- Composition of the middleware on an admin-scoped route as wired in
routes/mod.rs: the admin sub-router is merged into the protected router
before the `require_auth` layer, so execution order is
`require_auth → require_admin → handler`. -/
def adminPipeline (secret : String) (now : Nat)
    (handler : Request → Except AppError α) (req : Request) :
    Except AppError α :=
  match require_auth secret now req with
  | Except.error e => Except.error e
  | Except.ok r =>
    match require_admin r with
    | Except.error e => Except.error e
    | Except.ok r => handler r

/-! ### Task list query (models/task.rs `TaskQuery`, handlers/tasks.rs
`list_tasks`) -/

/-- Mirror of `TaskQuery` (models/task.rs): `page` defaults to 1 and `limit`
to 25 at deserialization time; here they arrive already defaulted. -/
structure TaskQuery where
  page : Nat
  limit : Nat
  status : Option String
deriving Repr, DecidableEq

/-- The status allow-list `VALID` of `TaskQuery::parsed_statuses`. -/
def validStatus (s : String) : Bool :=
  s == "todo" || s == "in_progress" || s == "done"

/-- Error message for an invalid status value, as formatted by
`parsed_statuses` (apostrophes written as escapes). -/
def invalidStatusMsg (s : String) : String :=
  "invalid status \x27" ++ s ++ "\x27: must be one of todo, in_progress, done"

/-- Model of Rust `str::trim` on the character list: drop whitespace from
both ends. -/
def trimChars (l : List Char) : List Char :=
  ((l.dropWhile Char.isWhitespace).reverse.dropWhile Char.isWhitespace).reverse

/-- Model of Rust `str::split(',')`: split the character list at every
comma (an empty input yields one empty piece, as in Rust). -/
def splitCommaAux : List Char → List Char → List (List Char)
  | [], acc => [acc.reverse]
  | x :: xs, acc =>
    if x = ',' then acc.reverse :: splitCommaAux xs []
    else splitCommaAux xs (x :: acc)

/-- The candidate status values of a raw `status` parameter: split on
commas, trim each piece, drop the empty ones (`parsed_statuses` body). -/
def statusTokens (s : String) : List String :=
  ((splitCommaAux s.data []).map (fun l => String.mk (trimChars l))).filter
    (fun v => !v.data.isEmpty)

/-- Mirror of `TaskQuery::parsed_statuses` (models/task.rs): absent or blank
parameter means no filter; otherwise split on commas, trim, drop empties,
reject the first value outside the allow-list, and an all-empty list again
means no filter. -/
def TaskQuery.parsed_statuses (q : TaskQuery) :
    Except String (Option (List String)) :=
  match q.status with
  | none => Except.ok none
  | some s =>
    if (trimChars s.data).isEmpty then Except.ok none
    else
      match (statusTokens s).find? (fun v => !validStatus v) with
      | some bad => Except.error (invalidStatusMsg bad)
      | none =>
        if (statusTokens s).isEmpty then Except.ok none
        else Except.ok (some (statusTokens s))

/-- Mirror of `PaginatedTasksResponse` (models/task.rs). -/
structure PaginatedTasksResponse where
  tasks : List Task
  total : Nat
  page : Nat
  limit : Nat
  total_pages : Nat
deriving Repr, DecidableEq

/-- Insertion into a list kept sorted by `created_at` descending (model of
the `sort(created_at: -1)` find option). -/
def insertByCreatedDesc (t : Task) : List Task → List Task
  | [] => [t]
  | u :: us =>
    if u.created_at ≤ t.created_at then t :: u :: us
    else u :: insertByCreatedDesc t us

/-- Sort a task list by `created_at` descending. -/
def sortByCreatedDesc (ts : List Task) : List Task :=
  ts.foldr insertByCreatedDesc []

/-- Mirror of `list_tasks` (handlers/tasks.rs): bounds checks on `limit` and
`page`, status parsing mapped to `BadRequest`, then count / skip / take over
the filtered store. -/
def list_tasks (q : TaskQuery) (store : List Task) :
    Except AppError PaginatedTasksResponse :=
  if q.limit = 0 ∨ q.limit > 100 then
    Except.error (AppError.BadRequest ("limit must be between 1 and 100"))
  else if q.page = 0 then
    Except.error (AppError.BadRequest ("page must be >= 1"))
  else
    match q.parsed_statuses with
    | Except.error m => Except.error (AppError.BadRequest m)
    | Except.ok statuses =>
      let keep : Task → Bool := fun t =>
        match statuses with
        | none => true
        | some list => list.contains t.status
      let filtered := store.filter keep
      let total := filtered.length
      let skip := (q.page - 1) * q.limit
      let tasks := ((sortByCreatedDesc filtered).drop skip).take q.limit
      let total_pages := if total = 0 then 1
        else (total + q.limit - 1) / q.limit
      Except.ok { tasks := tasks, total := total, page := q.page,
                  limit := q.limit, total_pages := total_pages }

/-! ### Task update (handlers/tasks.rs `update_task`)

The `$set` document built by `update_task` is modelled as a record with one
optional slot per updatable key: `none` means the key is not in the `$set`
document, `some v` means the key is set to the BSON encoding of `v`.  For the
two nullable-reference fields the slot itself holds an `Option`, with
`some none` standing for `Bson::Null` (which deserializes back into the
entity as a cleared field). -/

/-- The `$set` document of `update_task`, one optional slot per key. -/
structure SetDoc where
  updated_at : Nat
  title : Option String
  description : Option String
  status : Option String
  assignee_id : Option (Option String)
  cti : Option (Option CtiSelection)
deriving Repr, DecidableEq

/-- Mirror of the `set_doc` construction in `update_task`
(handlers/tasks.rs lines 158-184): starts from `updated_at: now` only, then
inserts each key exactly when the decoded payload mentions it, with
`Some(None)` inserting `Bson::Null`. -/
def buildSetDoc (p : UpdateTaskRequest) (now : Nat) : SetDoc :=
  let d : SetDoc := { updated_at := now, title := none, description := none,
                      status := none, assignee_id := none, cti := none }
  let d := match p.title with
    | some title => { d with title := some title }
    | none => d
  let d := match p.description with
    | some description => { d with description := some description }
    | none => d
  let d := match p.status with
    | some status => { d with status := some status }
    | none => d
  let d := match p.assignee_id with
    | some assignee =>
      match assignee with
      | none => { d with assignee_id := some none }
      | some v => { d with assignee_id := some (some v) }
    | none => d
  let d := match p.cti with
    | some cti =>
      match cti with
      | none => { d with cti := some none }
      | some v => { d with cti := some (some v) }
    | none => d
  d

/-- MongoDB `$set` semantics on a stored task: every key present in the
document is overwritten, every key absent from it is untouched. -/
def applySet (t : Task) (d : SetDoc) : Task :=
  { t with
    updated_at := d.updated_at,
    title := match d.title with
      | some v => v
      | none => t.title,
    description := match d.description with
      | some v => v
      | none => t.description,
    status := match d.status with
      | some v => v
      | none => t.status,
    assignee_id := match d.assignee_id with
      | some v => v
      | none => t.assignee_id,
    cti := match d.cti with
      | some v => v
      | none => t.cti }

/-- Find a task by `_id` in the store. -/
def findTask (store : List Task) (id : String) : Option Task :=
  store.find? (fun t => t.id == id)

/-- Replace the task with the given id in the store. -/
def replaceTask (store : List Task) (id : String) (t : Task) : List Task :=
  store.map (fun u => if u.id == id then t else u)

/-- Mirror of `update_task` (handlers/tasks.rs): atomic
`find_one_and_update` with `$set` and `ReturnDocument::After`; a missing
task is `NotFound`.  Returns the post-update store next to the returned
task. -/
def update_task (store : List Task) (id : String) (p : UpdateTaskRequest)
    (now : Nat) : Except AppError (List Task × Task) :=
  match findTask store id with
  | none => Except.error AppError.NotFound
  | some t =>
    let updated := applySet t (buildSetDoc p now)
    Except.ok (replaceTask store id updated, updated)

/-- Mirror of `delete_note` (handlers/tasks.rs): atomic
`find_one_and_update` pulling the note with the given `_id` and stamping
`updated_at`; a missing parent task is `NotFound`, a missing note inside an
existing task is not an error. -/
def delete_note (store : List Task) (task_id note_id : String) (now : Nat) :
    Except AppError (List Task × Task) :=
  match findTask store task_id with
  | none => Except.error AppError.NotFound
  | some t =>
    let updated := { t with notes := t.notes.filter (fun n => n.id != note_id),
                            updated_at := now }
    Except.ok (replaceTask store task_id updated, updated)

/-! ### Auth handlers (handlers/auth.rs `register`, `login`)

Argon2 hashing and verification are opaque cryptographic primitives; the
embedding takes them as explicit function parameters: `hashFn` for
`Argon2::hash_password` (which can fail), `parseHash` for
`PasswordHash::new` (parse of the stored hash string) and `verifyPw` for
`Argon2::verify_password`. -/

/-- Mirror of `RegisterRequest` (handlers/auth.rs). -/
structure RegisterRequest where
  email : String
  username : String
  password : String
deriving Repr, DecidableEq

/-- Serde decode of `RegisterRequest` from a JSON object body: three
required string fields, every other key ignored (serde default). -/
def decodeRegisterRequest (fields : List (String × Json)) :
    Except String RegisterRequest := do
  let email ← match lookupField fields "email" with
    | some j => asString j
    | none => Except.error ("missing field email")
  let username ← match lookupField fields "username" with
    | some j => asString j
    | none => Except.error ("missing field username")
  let password ← match lookupField fields "password" with
    | some j => asString j
    | none => Except.error ("missing field password")
  Except.ok { email := email, username := username, password := password }

/-- Mirror of `AuthResponse` (handlers/auth.rs). -/
structure AuthResponse where
  token : Token
  user : UserPublic
deriving Repr, DecidableEq

/-- The unique-index insert of the users collection: MongoDB unique
indexes on `email` and `username` make a duplicate insert fail with
duplicate-key error 11000, which `register` maps through `is_duplicate_key`
to `Conflict`. -/
def insertUser (store : List User) (u : User) :
    Except AppError (List User) :=
  if store.any (fun v => v.email == u.email || v.username == u.username) then
    Except.error (AppError.Conflict ("Email or username already taken"))
  else
    Except.ok (store ++ [u])

/-- Mirror of `register` (handlers/auth.rs): hash the password (a hashing
failure is `BadRequest`), build the user with `User::new`, insert it (a
duplicate key is `Conflict`), then mint a token.  Returns the post-insert
store next to the response. -/
def register (hashFn : String → Except String String) (store : List User)
    (payload : RegisterRequest) (secret : String) (freshId : String)
    (now : Nat) : Except AppError (List User × AuthResponse) :=
  match hashFn payload.password with
  | Except.error e =>
    Except.error (AppError.BadRequest ("Password hashing failed: " ++ e))
  | Except.ok password_hash =>
    let user := User.new freshId now payload.email payload.username
      password_hash
    match insertUser store user with
    | Except.error e => Except.error e
    | Except.ok newStore =>
      Except.ok (newStore,
        { token := mint_token user secret now,
          user := UserPublic.ofUser user })

/-- HTTP status of the `register` handler outcome: the handler returns
`AppResult<Json<AuthResponse>>`, and the axum `Json` responder replies with
status 200 OK on success (no explicit status override, unlike `create_task`
which returns `(StatusCode::CREATED, Json(task))`). -/
def registerHttpStatus (r : Except AppError (List User × AuthResponse)) :
    Nat :=
  match r with
  | Except.ok _ => 200
  | Except.error e => e.statusCode

/-- Mirror of `login` (handlers/auth.rs): find the account by email
(`Unauthorized` if absent), parse the stored hash (`Unauthorized` if
malformed), verify the password (`Unauthorized` if wrong), then mint a
token. -/
def login {H : Type} (parseHash : String → Option H)
    (verifyPw : String → H → Bool) (store : List User)
    (email password : String) (secret : String) (now : Nat) :
    Except AppError AuthResponse :=
  match store.find? (fun u => u.email == email) with
  | none => Except.error AppError.Unauthorized
  | some user =>
    match parseHash user.password_hash with
    | none => Except.error AppError.Unauthorized
    | some parsed =>
      if verifyPw password parsed then
        Except.ok { token := mint_token user secret now,
                    user := UserPublic.ofUser user }
      else Except.error AppError.Unauthorized

/-! ### Admin handlers (handlers/admin.rs) -/

/-- The part of `admin_update_role` after the self-protection guard: role
value validation, then the atomic role update returning the new document, a
missing target being `NotFound`. -/
def admin_update_role_checked (id role : String) (store : List User)
    (now : Nat) : Except AppError (List User × UserPublic) :=
  if role ≠ "user" ∧ role ≠ "admin" then
    Except.error (AppError.BadRequest
      ("Role must be \x27user\x27 or \x27admin\x27"))
  else
    match store.find? (fun u => u.id == id) with
    | none => Except.error AppError.NotFound
    | some u =>
      let updated := { u with role := role, updated_at := now }
      Except.ok (store.map (fun v => if v.id == id then updated else v),
        UserPublic.ofUser updated)

/-- Mirror of `admin_update_role` (handlers/admin.rs): the self-protection
guard rejects `claims.sub == id` with `BadRequest` before anything else. -/
def admin_update_role (claims : Claims) (id : String) (role : String)
    (store : List User) (now : Nat) :
    Except AppError (List User × UserPublic) :=
  if claims.sub = id then
    Except.error (AppError.BadRequest ("Cannot change your own role"))
  else admin_update_role_checked id role store now

/-- The part of `admin_delete_user` after the self-protection guard:
`delete_one` by id, `NotFound` when nothing was deleted, 204 No Content
otherwise (the status is implicit in the `Ok` outcome). -/
def admin_delete_user_checked (id : String) (store : List User) :
    Except AppError (List User) :=
  if store.any (fun u => u.id == id) then
    Except.ok (store.filter (fun u => u.id != id))
  else Except.error AppError.NotFound

/-- Mirror of `admin_delete_user` (handlers/admin.rs): the self-protection
guard rejects `claims.sub == id` with `BadRequest` before anything else. -/
def admin_delete_user (claims : Claims) (id : String) (store : List User) :
    Except AppError (List User) :=
  if claims.sub = id then
    Except.error (AppError.BadRequest ("Cannot delete your own account"))
  else admin_delete_user_checked id store

/-! ## Helper lemmas -/

/-- A successful `Except` bind factors into a successful first step and a
successful continuation. -/
theorem exceptBind_ok {ε α β : Type} {m : Except ε α} {f : α → Except ε β}
    {b : β} (h : (m >>= f) = Except.ok b) :
    ∃ a, m = Except.ok a ∧ f a = Except.ok b := by
  cases m with
  | error e => simp [Bind.bind, Except.bind] at h
  | ok a => exact ⟨a, rfl, by simpa [Bind.bind, Except.bind] using h⟩

/-- A tri-state field decode of an absent key yields the serde default
`none`. -/
theorem decodeTriState_absent {α : Type} (dec : Json → Except String α)
    (fields : List (String × Json)) (k : String)
    (h : lookupField fields k = none) :
    decodeTriState dec fields k = Except.ok none := by
  simp [decodeTriState, h]

/-- A tri-state field decode of a key bound to `null` yields
`some none`. -/
theorem decodeTriState_null {α : Type} (dec : Json → Except String α)
    (fields : List (String × Json)) (k : String)
    (h : lookupField fields k = some Json.null) :
    decodeTriState dec fields k = Except.ok (some none) := by
  simp [decodeTriState, h, optional_nullable, deserializeOption, Except.map]

/-- A tri-state field decode of a key bound to a value the inner decoder
accepts yields `some (some a)`. -/
theorem decodeTriState_value {α : Type} (dec : Json → Except String α)
    (fields : List (String × Json)) (k : String) (j : Json) (a : α)
    (h : lookupField fields k = some j) (hdec : dec j = Except.ok a)
    (hnull : j ≠ Json.null) :
    decodeTriState dec fields k = Except.ok (some (some a)) := by
  simp only [decodeTriState, h, optional_nullable]
  cases j with
  | null => exact absurd rfl hnull
  | str s => simp [deserializeOption, hdec, Except.map]
  | num n => simp [deserializeOption, hdec, Except.map]
  | boolean b => simp [deserializeOption, hdec, Except.map]
  | arr l => simp [deserializeOption, hdec, Except.map]
  | obj fs => simp [deserializeOption, hdec, Except.map]

/-! ## Claims -/

/-- Claim C1: for every nullable-reference field (`assignee_id`, `cti`) of a
decoded task-update request body, an omitted key decodes the field to
`none` (Absent), a key bound to `null` decodes to `some none`
(Explicit-null), and a key bound to a concrete value `v` decodes to
`some (some v)` (Explicit-value). -/
theorem tri_state_decode_law (fields : List (String × Json))
    (r : UpdateTaskRequest)
    (h : decodeUpdateTaskRequest fields = Except.ok r) :
    (lookupField fields "assignee_id" = none → r.assignee_id = none) ∧
    (lookupField fields "assignee_id" = some Json.null →
      r.assignee_id = some none) ∧
    (∀ v : String, lookupField fields "assignee_id" = some (Json.str v) →
      r.assignee_id = some (some v)) ∧
    (lookupField fields "cti" = none → r.cti = none) ∧
    (lookupField fields "cti" = some Json.null → r.cti = some none) ∧
    (∀ (j : Json) (c : CtiSelection), lookupField fields "cti" = some j →
      decodeCtiSelection j = Except.ok c → r.cti = some (some c)) := by
  simp only [decodeUpdateTaskRequest] at h
  obtain ⟨title, h1, h⟩ := exceptBind_ok h
  obtain ⟨description, h2, h⟩ := exceptBind_ok h
  obtain ⟨status, h3, h⟩ := exceptBind_ok h
  obtain ⟨assignee, h4, h⟩ := exceptBind_ok h
  obtain ⟨cti, h5, h⟩ := exceptBind_ok h
  injection h with h
  subst h
  refine ⟨?_, ?_, ?_, ?_, ?_, ?_⟩
  · intro ha
    rw [decodeTriState_absent asString fields _ ha] at h4
    exact (Except.ok.inj h4).symm
  · intro ha
    rw [decodeTriState_null asString fields _ ha] at h4
    exact (Except.ok.inj h4).symm
  · intro v ha
    rw [decodeTriState_value asString fields _ (Json.str v) v ha rfl
      (fun he => Json.noConfusion he)] at h4
    exact (Except.ok.inj h4).symm
  · intro hc
    rw [decodeTriState_absent decodeCtiSelection fields _ hc] at h5
    exact (Except.ok.inj h5).symm
  · intro hc
    rw [decodeTriState_null decodeCtiSelection fields _ hc] at h5
    exact (Except.ok.inj h5).symm
  · intro j c hj hc
    have hnull : j ≠ Json.null := by
      intro he
      subst he
      simp [decodeCtiSelection] at hc
    rw [decodeTriState_value decodeCtiSelection fields _ j c hj hc hnull]
      at h5
    exact (Except.ok.inj h5).symm

/-- Witness for C1: a concrete payload binding `assignee_id` to null and
`cti` to a concrete object decodes to Explicit-null and Explicit-value. -/
theorem tri_state_decode_law_witness :
    ({ title := none, description := none, status := none,
       assignee_id := some none,
       cti := some (some { category_id := "c", type_id := "t",
                           item_id := "i" }) } :
      UpdateTaskRequest).assignee_id = some none ∧
    ({ title := none, description := none, status := none,
       assignee_id := some none,
       cti := some (some { category_id := "c", type_id := "t",
                           item_id := "i" }) } :
      UpdateTaskRequest).cti =
      some (some { category_id := "c", type_id := "t", item_id := "i" }) := by
  have h := tri_state_decode_law
    [("assignee_id", Json.null),
     ("cti", Json.obj [("category_id", Json.str "c"),
                       ("type_id", Json.str "t"),
                       ("item_id", Json.str "i")])]
    { title := none, description := none, status := none,
      assignee_id := some none,
      cti := some (some { category_id := "c", type_id := "t",
                          item_id := "i" }) }
    rfl
  exact ⟨h.2.1 rfl, h.2.2.2.2.2 _ _ rfl rfl⟩

/-- The `$set` document built by `update_task` carries exactly the decoded
patch: each slot equals the corresponding field of the request. -/
theorem buildSetDoc_eq (p : UpdateTaskRequest) (now : Nat) :
    buildSetDoc p now =
      { updated_at := now, title := p.title, description := p.description,
        status := p.status, assignee_id := p.assignee_id, cti := p.cti } := by
  rcases p with ⟨pt, pd, ps, pa, pc⟩
  cases pt <;> cases pd <;> cases ps <;>
    rcases pa with _ | (_ | _) <;> rcases pc with _ | (_ | _) <;> rfl

/-- Claim C2: applying a decoded task patch to a stored task leaves every
Absent field unchanged, replaces explicitly present fields, clears
explicitly nulled fields, and always stamps `updated_at` with the current
time; `id`, `notes` and `created_at` are never touched. -/
theorem update_task_frame (store : List Task) (id : String)
    (p : UpdateTaskRequest) (now : Nat) (out : List Task × Task) (t : Task)
    (hfind : findTask store id = some t)
    (hup : update_task store id p now = Except.ok out) :
    out.2.updated_at = now ∧
    (p.title = none → out.2.title = t.title) ∧
    (∀ v, p.title = some v → out.2.title = v) ∧
    (p.description = none → out.2.description = t.description) ∧
    (∀ v, p.description = some v → out.2.description = v) ∧
    (p.status = none → out.2.status = t.status) ∧
    (∀ v, p.status = some v → out.2.status = v) ∧
    (p.assignee_id = none → out.2.assignee_id = t.assignee_id) ∧
    (p.assignee_id = some none → out.2.assignee_id = none) ∧
    (∀ v, p.assignee_id = some (some v) → out.2.assignee_id = some v) ∧
    (p.cti = none → out.2.cti = t.cti) ∧
    (p.cti = some none → out.2.cti = none) ∧
    (∀ v, p.cti = some (some v) → out.2.cti = some v) ∧
    out.2.id = t.id ∧ out.2.notes = t.notes ∧
    out.2.created_at = t.created_at := by
  have hout : out.2 = applySet t (buildSetDoc p now) := by
    simp only [update_task, hfind] at hup
    exact congrArg Prod.snd (Except.ok.inj hup).symm
  rw [hout, buildSetDoc_eq]
  refine ⟨rfl, fun h => ?_, fun v h => ?_, fun h => ?_, fun v h => ?_,
    fun h => ?_, fun v h => ?_, fun h => ?_, fun h => ?_, fun v h => ?_,
    fun h => ?_, fun h => ?_, fun v h => ?_, rfl, rfl, rfl⟩ <;>
    simp [applySet, h]

/-- Witness for C2: a patch mentioning only `description` and a null
`assignee_id` leaves the title untouched, clears the assignee and stamps
`updated_at` on a concrete stored task. -/
theorem update_task_frame_witness :
    (applySet
      { id := "t1", title := "old", description := "d", status := "todo",
        notes := [], assignee_id := some "u1", cti := none,
        created_at := 0, updated_at := 0 }
      (buildSetDoc
        { title := none, description := some "d2", status := none,
          assignee_id := some none, cti := none } 7)).title = "old" ∧
    (applySet
      { id := "t1", title := "old", description := "d", status := "todo",
        notes := [], assignee_id := some "u1", cti := none,
        created_at := 0, updated_at := 0 }
      (buildSetDoc
        { title := none, description := some "d2", status := none,
          assignee_id := some none, cti := none } 7)).assignee_id = none ∧
    (applySet
      { id := "t1", title := "old", description := "d", status := "todo",
        notes := [], assignee_id := some "u1", cti := none,
        created_at := 0, updated_at := 0 }
      (buildSetDoc
        { title := none, description := some "d2", status := none,
          assignee_id := some none, cti := none } 7)).updated_at = 7 := by
  have h := update_task_frame
    [{ id := "t1", title := "old", description := "d", status := "todo",
       notes := [], assignee_id := some "u1", cti := none,
       created_at := 0, updated_at := 0 }]
    "t1"
    { title := none, description := some "d2", status := none,
      assignee_id := some none, cti := none }
    7
    (replaceTask
      [{ id := "t1", title := "old", description := "d", status := "todo",
         notes := [], assignee_id := some "u1", cti := none,
         created_at := 0, updated_at := 0 }]
      "t1"
      (applySet
        { id := "t1", title := "old", description := "d", status := "todo",
          notes := [], assignee_id := some "u1", cti := none,
          created_at := 0, updated_at := 0 }
        (buildSetDoc
          { title := none, description := some "d2", status := none,
            assignee_id := some none, cti := none } 7)),
     applySet
      { id := "t1", title := "old", description := "d", status := "todo",
        notes := [], assignee_id := some "u1", cti := none,
        created_at := 0, updated_at := 0 }
      (buildSetDoc
        { title := none, description := some "d2", status := none,
          assignee_id := some none, cti := none } 7))
    { id := "t1", title := "old", description := "d", status := "todo",
      notes := [], assignee_id := some "u1", cti := none,
      created_at := 0, updated_at := 0 }
    rfl rfl
  exact ⟨h.2.1 rfl, h.2.2.2.2.2.2.2.2.1 rfl, h.1⟩

/-- Counterexample to C3 as stated: validating a token minted at time 0
(so `expires_at = 24h = 86400s`) at time `expires_at + 1s` SUCCEEDS, because
`require_auth` decodes with `jsonwebtoken::Validation::default()`, whose
default expiry leeway is 60 seconds; the claim says it must fail. -/
theorem mint_validate_strict_expiry_counterexample :
    decodeToken
      (mint_token
        { id := "u1", email := "a@x.com", username := "a",
          password_hash := "h", role := "user", created_at := 0,
          updated_at := 0 } "secret" 0)
      "secret" (24 * 3600 + 1) defaultLeeway =
      Except.ok { sub := "u1", email := "a@x.com", role := "user",
                  exp := 24 * 3600 } := by
  rfl

/-- Claim C3 (amended): `validate(mint(account))` yields Claims whose
subject, email and role equal the account and whose `expires_at` is mint
time + 24h; validation succeeds at every time up to
`expires_at + 60s` (the default leeway of the signing library) — in particular
both at `expires_at - 1s` and at `expires_at + 1s` — and fails with
`Unauthorized` at every later time, in particular `expires_at + 61s`. -/
theorem mint_validate_roundtrip (u : User) (secret : String) (now : Nat) :
    (∀ t, t ≤ now + 24 * 3600 + defaultLeeway →
      decodeToken (mint_token u secret now) secret t defaultLeeway =
        Except.ok { sub := u.id, email := u.email, role := u.role,
                    exp := now + 24 * 3600 }) ∧
    (∀ t, now + 24 * 3600 + defaultLeeway < t →
      require_auth secret t
        { auth_header := some (AuthHeader.bearer (mint_token u secret now)),
          claims_ext := none } = Except.error AppError.Unauthorized) := by
  constructor
  · intro t ht
    simp only [defaultLeeway] at ht
    simp only [decodeToken, mint_token, defaultLeeway]
    rw [if_neg (by simp), if_neg (by simp; omega)]
  · intro t ht
    simp only [defaultLeeway] at ht
    have hd : decodeToken (mint_token u secret now) secret t defaultLeeway =
        Except.error ("ExpiredSignature") := by
      simp only [decodeToken, mint_token, defaultLeeway]
      rw [if_neg (by simp), if_pos (by simp; omega)]
    simp [require_auth, hd]

/-- Witness for C3 (amended): the token of a concrete account minted at time 0
validates at `expires_at - 1s` with matching claims and is rejected
`Unauthorized` at `expires_at + 61s`. -/
theorem mint_validate_roundtrip_witness :
    decodeToken
      (mint_token
        { id := "u1", email := "a@x.com", username := "a",
          password_hash := "h", role := "user", created_at := 0,
          updated_at := 0 } "s" 0)
      "s" (24 * 3600 - 1) defaultLeeway =
      Except.ok { sub := "u1", email := "a@x.com", role := "user",
                  exp := 24 * 3600 } ∧
    require_auth "s" (24 * 3600 + defaultLeeway + 1)
      { auth_header := some (AuthHeader.bearer
          (mint_token
            { id := "u1", email := "a@x.com", username := "a",
              password_hash := "h", role := "user", created_at := 0,
              updated_at := 0 } "s" 0)),
        claims_ext := none } = Except.error AppError.Unauthorized := by
  have h := mint_validate_roundtrip
    { id := "u1", email := "a@x.com", username := "a",
      password_hash := "h", role := "user", created_at := 0,
      updated_at := 0 } "s" 0
  exact ⟨h.1 (24 * 3600 - 1) (by decide), h.2 (24 * 3600 + defaultLeeway + 1)
    (by decide)⟩

/-- Claim C4: a task-list query with `limit` 0 or above 100, or `page` 0,
is `BadRequest`; a status filter containing a value outside the allow-list
is `BadRequest` with a message naming an offending value; an empty status
parameter applies no filter.  All the error cases hold for EVERY store,
which is the shallow-embedding reading of failing before any storage
access. -/
theorem list_tasks_validation (q : TaskQuery) (store : List Task) :
    ((q.limit = 0 ∨ q.limit > 100) →
      list_tasks q store =
        Except.error (AppError.BadRequest
          ("limit must be between 1 and 100"))) ∧
    (¬(q.limit = 0 ∨ q.limit > 100) → q.page = 0 →
      list_tasks q store =
        Except.error (AppError.BadRequest ("page must be >= 1"))) ∧
    (∀ s, q.status = some s → (trimChars s.data).isEmpty = false →
      (∃ b ∈ statusTokens s, validStatus b = false) →
      ¬(q.limit = 0 ∨ q.limit > 100) → ¬q.page = 0 →
      ∃ bad ∈ statusTokens s, validStatus bad = false ∧
        list_tasks q store =
          Except.error (AppError.BadRequest (invalidStatusMsg bad))) ∧
    (∀ s, q.status = some s → (trimChars s.data).isEmpty = true →
      list_tasks q store = list_tasks { q with status := none } store) := by
  refine ⟨fun h => ?_, fun h1 h2 => ?_, fun s hs hne hex h1 h2 => ?_,
    fun s hs he => ?_⟩
  · simp only [list_tasks, if_pos h]
  · simp only [list_tasks, if_neg h1, if_pos h2]
  · obtain ⟨b, hb, hvb⟩ := hex
    have hsome : ((statusTokens s).find? (fun v => !validStatus v)).isSome :=
      by
      rw [List.find?_isSome]
      exact ⟨b, hb, by simp [hvb]⟩
    obtain ⟨bad, hbad⟩ := Option.isSome_iff_exists.mp hsome
    have hmem := List.mem_of_find?_eq_some hbad
    have hpbad := List.find?_some hbad
    have hps : q.parsed_statuses =
        Except.error (invalidStatusMsg bad) := by
      simp only [TaskQuery.parsed_statuses, hs]
      rw [if_neg (by simp [hne])]
      simp [hbad]
    refine ⟨bad, hmem, by simpa using hpbad, ?_⟩
    simp only [list_tasks, if_neg h1, if_neg h2, hps]
  · have hps : q.parsed_statuses = Except.ok none := by
      simp only [TaskQuery.parsed_statuses, hs]
      rw [if_pos (by simp [he])]
    have hps2 : TaskQuery.parsed_statuses { q with status := none } =
        Except.ok none := by
      simp [TaskQuery.parsed_statuses]
    simp only [list_tasks, hps, hps2]

/-- Witness for C4: concrete queries with limit 0, page 0, the filter
`todo,bogus`, and a blank filter produce the claimed outcomes on a concrete
store. -/
theorem list_tasks_validation_witness :
    list_tasks { page := 1, limit := 0, status := none } [] =
      Except.error (AppError.BadRequest
        ("limit must be between 1 and 100")) ∧
    list_tasks { page := 0, limit := 25, status := none } [] =
      Except.error (AppError.BadRequest ("page must be >= 1")) ∧
    (∃ bad ∈ statusTokens "todo,bogus", validStatus bad = false ∧
      list_tasks { page := 1, limit := 25, status := some "todo,bogus" } [] =
        Except.error (AppError.BadRequest (invalidStatusMsg bad))) ∧
    list_tasks { page := 1, limit := 25, status := some "" } [] =
      list_tasks { page := 1, limit := 25, status := none } [] := by
  refine ⟨?_, ?_, ?_, ?_⟩
  · exact (list_tasks_validation { page := 1, limit := 0, status := none }
      []).1 (Or.inl rfl)
  · exact (list_tasks_validation { page := 0, limit := 25, status := none }
      []).2.1 (by decide) rfl
  · exact (list_tasks_validation
      { page := 1, limit := 25, status := some "todo,bogus" } []).2.2.1
      "todo,bogus" rfl (by decide) ⟨"bogus", by decide, by decide⟩
      (by decide) (by decide)
  · exact (list_tasks_validation
      { page := 1, limit := 25, status := some "" } []).2.2.2 "" rfl
      (by decide)

/-- Claim C5: whatever the role of the authenticated actor, a role change
or a deletion targeting the id equal to the actor Claims subject is
`BadRequest` (and in particular not `Forbidden`), independently of the
store — so no stored state is touched; targeting a different id proceeds
past the self-protection guard into the respective checked operation. -/
theorem self_protection (claims : Claims) (id role : String)
    (store : List User) (now : Nat) :
    (claims.sub = id →
      admin_update_role claims id role store now =
        Except.error (AppError.BadRequest ("Cannot change your own role")) ∧
      admin_delete_user claims id store =
        Except.error (AppError.BadRequest
          ("Cannot delete your own account"))) ∧
    (claims.sub ≠ id →
      admin_update_role claims id role store now =
        admin_update_role_checked id role store now ∧
      admin_delete_user claims id store =
        admin_delete_user_checked id store) := by
  constructor
  · intro h
    constructor
    · simp [admin_update_role, h]
    · simp [admin_delete_user, h]
  · intro h
    constructor
    · simp [admin_update_role, h]
    · simp [admin_delete_user, h]

/-- Witness for C5: an admin targeting their own id gets `BadRequest` from
both operations; targeting another id runs the checked operation (which
here succeeds in changing the other account). -/
theorem self_protection_witness :
    admin_update_role
      { sub := "a1", email := "a@x.com", role := "admin", exp := 0 }
      "a1" "user" [] 0 =
      Except.error (AppError.BadRequest ("Cannot change your own role")) ∧
    admin_delete_user
      { sub := "a1", email := "a@x.com", role := "admin", exp := 0 }
      "a1" [] =
      Except.error (AppError.BadRequest ("Cannot delete your own account")) ∧
    admin_update_role
      { sub := "a1", email := "a@x.com", role := "admin", exp := 0 }
      "b2" "user"
      [{ id := "b2", email := "b@x.com", username := "b",
         password_hash := "h", role := "admin", created_at := 0,
         updated_at := 0 }] 9 =
      admin_update_role_checked "b2" "user"
        [{ id := "b2", email := "b@x.com", username := "b",
           password_hash := "h", role := "admin", created_at := 0,
           updated_at := 0 }] 9 := by
  have h1 := self_protection
    { sub := "a1", email := "a@x.com", role := "admin", exp := 0 }
    "a1" "user" [] 0
  have h2 := self_protection
    { sub := "a1", email := "a@x.com", role := "admin", exp := 0 }
    "b2" "user"
    [{ id := "b2", email := "b@x.com", username := "b",
       password_hash := "h", role := "admin", created_at := 0,
       updated_at := 0 }] 9
  exact ⟨(h1.1 rfl).1, (h1.1 rfl).2, (h2.2 (by decide)).1⟩

/-- Claim C6: each of the three login failure causes — unknown email,
unparseable stored hash, wrong password — produces the very same
`Unauthorized` outcome, for every hash parser and verifier. -/
theorem login_unauthorized_indistinguishable {H : Type}
    (parseHash : String → Option H) (verifyPw : String → H → Bool)
    (store : List User) (email password secret : String) (now : Nat) :
    (store.find? (fun u => u.email == email) = none →
      login parseHash verifyPw store email password secret now =
        Except.error AppError.Unauthorized) ∧
    (∀ u, store.find? (fun u => u.email == email) = some u →
      parseHash u.password_hash = none →
      login parseHash verifyPw store email password secret now =
        Except.error AppError.Unauthorized) ∧
    (∀ u ph, store.find? (fun u => u.email == email) = some u →
      parseHash u.password_hash = some ph →
      verifyPw password ph = false →
      login parseHash verifyPw store email password secret now =
        Except.error AppError.Unauthorized) := by
  refine ⟨fun h => ?_, fun u h hp => ?_, fun u ph h hp hv => ?_⟩
  · simp [login, h]
  · simp [login, h, hp]
  · simp [login, h, hp, hv]

/-- Witness for C6: with a concrete store, parser and verifier, all three
failure paths return the same `Unauthorized` value. -/
theorem login_unauthorized_indistinguishable_witness :
    login (fun s => if s == "parseable" then some s else none)
      (fun p h => p == "pw" && h == "parseable")
      [{ id := "u1", email := "a@x.com", username := "a",
         password_hash := "corrupt", role := "user", created_at := 0,
         updated_at := 0 },
       { id := "u2", email := "b@x.com", username := "b",
         password_hash := "parseable", role := "user", created_at := 0,
         updated_at := 0 }]
      "nobody@x.com" "pw" "s" 0 = Except.error AppError.Unauthorized ∧
    login (fun s => if s == "parseable" then some s else none)
      (fun p h => p == "pw" && h == "parseable")
      [{ id := "u1", email := "a@x.com", username := "a",
         password_hash := "corrupt", role := "user", created_at := 0,
         updated_at := 0 }]
      "a@x.com" "pw" "s" 0 = Except.error AppError.Unauthorized ∧
    login (fun s => if s == "parseable" then some s else none)
      (fun p h => p == "pw" && h == "parseable")
      [{ id := "u2", email := "b@x.com", username := "b",
         password_hash := "parseable", role := "user", created_at := 0,
         updated_at := 0 }]
      "b@x.com" "wrong" "s" 0 = Except.error AppError.Unauthorized := by
  refine ⟨?_, ?_, ?_⟩
  · exact (login_unauthorized_indistinguishable
      (fun s => if s == "parseable" then some s else none)
      (fun p h => p == "pw" && h == "parseable")
      [{ id := "u1", email := "a@x.com", username := "a",
         password_hash := "corrupt", role := "user", created_at := 0,
         updated_at := 0 },
       { id := "u2", email := "b@x.com", username := "b",
         password_hash := "parseable", role := "user", created_at := 0,
         updated_at := 0 }]
      "nobody@x.com" "pw" "s" 0).1 rfl
  · exact (login_unauthorized_indistinguishable
      (fun s => if s == "parseable" then some s else none)
      (fun p h => p == "pw" && h == "parseable")
      [{ id := "u1", email := "a@x.com", username := "a",
         password_hash := "corrupt", role := "user", created_at := 0,
         updated_at := 0 }]
      "a@x.com" "pw" "s" 0).2.1
      { id := "u1", email := "a@x.com", username := "a",
        password_hash := "corrupt", role := "user", created_at := 0,
        updated_at := 0 } rfl rfl
  · exact (login_unauthorized_indistinguishable
      (fun s => if s == "parseable" then some s else none)
      (fun p h => p == "pw" && h == "parseable")
      [{ id := "u2", email := "b@x.com", username := "b",
         password_hash := "parseable", role := "user", created_at := 0,
         updated_at := 0 }]
      "b@x.com" "wrong" "s" 0).2.2
      { id := "u2", email := "b@x.com", username := "b",
        password_hash := "parseable", role := "user", created_at := 0,
        updated_at := 0 } "parseable" rfl rfl rfl

/-- Counterexample to C7 as stated: a concrete successful registration is
answered with HTTP status 200, not 201 — the handler returns
`AppResult<Json<AuthResponse>>` and the axum `Json` responder carries no
explicit status override. -/
theorem register_created_status_counterexample :
    (register (fun p => Except.ok ("h" ++ p)) []
      { email := "a@x.com", username := "a", password := "pw123456" }
      "s" "id1" 0).isOk = true ∧
    registerHttpStatus (register (fun p => Except.ok ("h" ++ p)) []
      { email := "a@x.com", username := "a", password := "pw123456" }
      "s" "id1" 0) = 200 ∧
    registerHttpStatus (register (fun p => Except.ok ("h" ++ p)) []
      { email := "a@x.com", username := "a", password := "pw123456" }
      "s" "id1" 0) ≠ 201 := by
  refine ⟨rfl, rfl, by decide⟩

/-- Claim C7 (amended): a successful registration returns HTTP status 200
(not 201) together with a token and the created user, and a second
registration with the same email against the resulting store returns
Conflict, which maps to HTTP status 409. -/
theorem register_ok_and_conflict (hashFn : String → Except String String)
    (store : List User) (payload : RegisterRequest)
    (secret freshId : String) (now : Nat) (out : List User × AuthResponse)
    (hok : register hashFn store payload secret freshId now =
      Except.ok out) :
    registerHttpStatus (register hashFn store payload secret freshId now) =
      200 ∧
    out.2.user.email = payload.email ∧
    out.2.user.username = payload.username ∧
    (∀ (p2 : RegisterRequest) (h2 id2 : String) (now2 : Nat)
      (secret2 : String), hashFn p2.password = Except.ok h2 →
      p2.email = payload.email →
      register hashFn out.1 p2 secret2 id2 now2 =
        Except.error (AppError.Conflict ("Email or username already taken"))
      ∧ registerHttpStatus (register hashFn out.1 p2 secret2 id2 now2) =
        409) := by
  have hreg := hok
  simp only [register] at hok
  cases hh : hashFn payload.password with
  | error e =>
    rw [hh] at hok
    simp at hok
  | ok ph =>
    rw [hh] at hok
    simp only [insertUser, User.new] at hok
    by_cases hdup : store.any
      (fun v => v.email == payload.email || v.username == payload.username)
      = true
    · rw [if_pos hdup] at hok
      simp at hok
    · rw [if_neg hdup] at hok
      have hp := Except.ok.inj hok
      subst hp
      refine ⟨by simp [registerHttpStatus, hreg], rfl, rfl, ?_⟩
      intro p2 h2 id2 now2 secret2 hh2 he
      have hconf : register hashFn
          (store ++ [{ id := freshId, email := payload.email,
                       username := payload.username, password_hash := ph,
                       role := "user", created_at := now,
                       updated_at := now }]) p2 secret2 id2 now2 =
          Except.error
            (AppError.Conflict ("Email or username already taken")) := by
        simp [register, hh2, insertUser, User.new, List.any_append, he]
      exact ⟨hconf, by simp [registerHttpStatus, hconf, AppError.statusCode]⟩

/-- Witness for C7 (amended): a concrete registration into an empty store
returns status 200, and repeating it with the same email returns
Conflict. -/
theorem register_ok_and_conflict_witness :
    registerHttpStatus (register (fun p => Except.ok ("h" ++ p)) []
      { email := "a@x.com", username := "a", password := "pw123456" }
      "s" "id1" 0) = 200 ∧
    register (fun p => Except.ok ("h" ++ p))
      [User.new "id1" 0 "a@x.com" "a" ("h" ++ "pw123456")]
      { email := "a@x.com", username := "b", password := "pw2" }
      "s2" "id2" 1 =
      Except.error (AppError.Conflict ("Email or username already taken"))
    := by
  have h := register_ok_and_conflict (fun p => Except.ok ("h" ++ p)) []
    { email := "a@x.com", username := "a", password := "pw123456" }
    "s" "id1" 0
    ([User.new "id1" 0 "a@x.com" "a" ("h" ++ "pw123456")],
     { token := mint_token
         (User.new "id1" 0 "a@x.com" "a" ("h" ++ "pw123456")) "s" 0,
       user := UserPublic.ofUser
         (User.new "id1" 0 "a@x.com" "a" ("h" ++ "pw123456")) })
    rfl
  have h2 := h.2.2.2
    { email := "a@x.com", username := "b", password := "pw2" }
    ("h" ++ "pw2") "id2" 1 "s2" rfl rfl
  exact ⟨h.1, h2.1⟩

/-- Claim C8: on an admin-scoped route, an authentication failure answers
`Unauthorized` and the role gate (and handler) never influences the
outcome; a validated non-admin is answered `Forbidden`; a missing Claims at
the role gate is answered `Unauthorized`; and an authenticated admin
reaches the handler.  The authenticate-before-authorize order is the
`adminPipeline` composition, which mirrors the routes/mod.rs layering. -/
theorem admin_gate_ordering {α : Type} (secret : String) (now : Nat)
    (handler : Request → Except AppError α) (req : Request) :
    (∀ e, require_auth secret now req = Except.error e →
      e = AppError.Unauthorized ∧
      adminPipeline secret now handler req =
        Except.error AppError.Unauthorized) ∧
    (∀ r c, require_auth secret now req = Except.ok r →
      r.claims_ext = some c → c.role ≠ "admin" →
      adminPipeline secret now handler req =
        Except.error AppError.Forbidden) ∧
    (req.claims_ext = none →
      require_admin req = Except.error AppError.Unauthorized) ∧
    (∀ r c, require_auth secret now req = Except.ok r →
      r.claims_ext = some c → c.role = "admin" →
      adminPipeline secret now handler req = handler r) := by
  refine ⟨fun e he => ?_, fun r c hr hc hrole => ?_, fun h => ?_,
    fun r c hr hc hrole => ?_⟩
  · have hU : e = AppError.Unauthorized := by
      rcases req with ⟨ah, ce⟩
      cases ah with
      | none =>
        simp [require_auth] at he
        exact he.symm
      | some a =>
        cases a with
        | malformed =>
          simp [require_auth] at he
          exact he.symm
        | bearer tok =>
          simp only [require_auth] at he
          cases hd : decodeToken tok secret now defaultLeeway with
          | error msg =>
            rw [hd] at he
            simp at he
            exact he.symm
          | ok claims =>
            rw [hd] at he
            simp at he
    subst hU
    exact ⟨rfl, by simp [adminPipeline, he]⟩
  · simp [adminPipeline, hr, require_admin, hc, hrole]
  · simp [require_admin, h]
  · simp [adminPipeline, hr, require_admin, hc, hrole]

/-- Witness for C8: with a concrete secret and handler, a request with no
header is `Unauthorized`, a request bearing a valid user-role token is
`Forbidden`, a request with no attached Claims fails the role gate with
`Unauthorized`, and a valid admin-role token reaches the handler. -/
theorem admin_gate_ordering_witness :
    adminPipeline "s" 0 (fun _ => Except.ok (0 : Nat))
      { auth_header := none, claims_ext := none } =
      Except.error AppError.Unauthorized ∧
    adminPipeline "s" 0 (fun _ => Except.ok (0 : Nat))
      { auth_header := some (AuthHeader.bearer
          { claims := { sub := "u1", email := "u@x.com", role := "user",
                        exp := 24 * 3600 }, secret := "s" }),
        claims_ext := none } = Except.error AppError.Forbidden ∧
    require_admin { auth_header := none, claims_ext := none } =
      Except.error AppError.Unauthorized ∧
    adminPipeline "s" 0 (fun _ => Except.ok (0 : Nat))
      { auth_header := some (AuthHeader.bearer
          { claims := { sub := "a1", email := "a@x.com", role := "admin",
                        exp := 24 * 3600 }, secret := "s" }),
        claims_ext := none } = Except.ok 0 := by
  refine ⟨?_, ?_, ?_, ?_⟩
  · exact ((admin_gate_ordering "s" 0 (fun _ => Except.ok (0 : Nat))
      { auth_header := none, claims_ext := none }).1
      AppError.Unauthorized rfl).2
  · exact (admin_gate_ordering "s" 0 (fun _ => Except.ok (0 : Nat))
      { auth_header := some (AuthHeader.bearer
          { claims := { sub := "u1", email := "u@x.com", role := "user",
                        exp := 24 * 3600 }, secret := "s" }),
        claims_ext := none }).2.1
      { auth_header := some (AuthHeader.bearer
          { claims := { sub := "u1", email := "u@x.com", role := "user",
                        exp := 24 * 3600 }, secret := "s" }),
        claims_ext := some { sub := "u1", email := "u@x.com",
                             role := "user", exp := 24 * 3600 } }
      { sub := "u1", email := "u@x.com", role := "user", exp := 24 * 3600 }
      rfl rfl (by decide)
  · exact (admin_gate_ordering "s" 0 (fun _ => Except.ok (0 : Nat))
      { auth_header := none, claims_ext := none }).2.2.1 rfl
  · exact (admin_gate_ordering "s" 0 (fun _ => Except.ok (0 : Nat))
      { auth_header := some (AuthHeader.bearer
          { claims := { sub := "a1", email := "a@x.com", role := "admin",
                        exp := 24 * 3600 }, secret := "s" }),
        claims_ext := none }).2.2.2
      { auth_header := some (AuthHeader.bearer
          { claims := { sub := "a1", email := "a@x.com", role := "admin",
                        exp := 24 * 3600 }, secret := "s" }),
        claims_ext := some { sub := "a1", email := "a@x.com",
                             role := "admin", exp := 24 * 3600 } }
      { sub := "a1", email := "a@x.com", role := "admin", exp := 24 * 3600 }
      rfl rfl rfl

/-- Claim C9: removing a note from a nonexistent parent task is `NotFound`;
removing a nonexistent note from an existing task succeeds and returns the
task (notes unchanged, `updated_at` stamped). -/
theorem delete_note_parent_check (store : List Task)
    (task_id note_id : String) (now : Nat) :
    (findTask store task_id = none →
      delete_note store task_id note_id now =
        Except.error AppError.NotFound) ∧
    (∀ t, findTask store task_id = some t →
      (∀ n ∈ t.notes, n.id ≠ note_id) →
      delete_note store task_id note_id now =
        Except.ok (replaceTask store task_id { t with updated_at := now },
                   { t with updated_at := now })) := by
  constructor
  · intro h
    simp [delete_note, h]
  · intro t h hn
    have hf : t.notes.filter (fun n => n.id != note_id) = t.notes := by
      rw [List.filter_eq_self]
      intro n hmem
      simpa using hn n hmem
    simp [delete_note, h, hf]

/-- Witness for C9: deleting a note from an empty store is `NotFound`;
deleting an absent note id from a concrete task succeeds and leaves the
notes unchanged. -/
theorem delete_note_parent_check_witness :
    delete_note [] "t1" "n2" 5 = Except.error AppError.NotFound ∧
    delete_note
      [{ id := "t1", title := "T", description := "D", status := "todo",
         notes := [{ id := "n1", note := "hello", author := "u1",
                     created_at := 1 }],
         assignee_id := none, cti := none, created_at := 0,
         updated_at := 0 }] "t1" "n2" 5 =
      Except.ok
        (replaceTask
          [{ id := "t1", title := "T", description := "D", status := "todo",
             notes := [{ id := "n1", note := "hello", author := "u1",
                         created_at := 1 }],
             assignee_id := none, cti := none, created_at := 0,
             updated_at := 0 }] "t1"
          { id := "t1", title := "T", description := "D", status := "todo",
            notes := [{ id := "n1", note := "hello", author := "u1",
                        created_at := 1 }],
            assignee_id := none, cti := none, created_at := 0,
            updated_at := 5 },
         { id := "t1", title := "T", description := "D", status := "todo",
           notes := [{ id := "n1", note := "hello", author := "u1",
                       created_at := 1 }],
           assignee_id := none, cti := none, created_at := 0,
           updated_at := 5 }) := by
  constructor
  · exact (delete_note_parent_check [] "t1" "n2" 5).1 rfl
  · exact (delete_note_parent_check
      [{ id := "t1", title := "T", description := "D", status := "todo",
         notes := [{ id := "n1", note := "hello", author := "u1",
                     created_at := 1 }],
         assignee_id := none, cti := none, created_at := 0,
         updated_at := 0 }] "t1" "n2" 5).2
      { id := "t1", title := "T", description := "D", status := "todo",
        notes := [{ id := "n1", note := "hello", author := "u1",
                    created_at := 1 }],
        assignee_id := none, cti := none, created_at := 0,
        updated_at := 0 } rfl
      (by intro n hmem; simp at hmem; rw [hmem]; decide)

/-- Claim C10: every account created through registration carries role
`"user"` — in the stored account, in the public response and in the minted
token — whatever the request payload; a `role` key in the raw JSON body is
ignored by the decode of `RegisterRequest`. -/
theorem registration_assigns_user_role
    (hashFn : String → Except String String) (store : List User)
    (payload : RegisterRequest) (secret freshId : String) (now : Nat)
    (out : List User × AuthResponse)
    (hok : register hashFn store payload secret freshId now =
      Except.ok out) :
    out.2.user.role = "user" ∧
    out.2.token.claims.role = "user" ∧
    (∀ u ∈ out.1, u ∈ store ∨ u.role = "user") ∧
    (∀ (fields : List (String × Json)) (j : Json),
      decodeRegisterRequest (("role", j) :: fields) =
        decodeRegisterRequest fields) := by
  simp only [register] at hok
  cases hh : hashFn payload.password with
  | error e =>
    rw [hh] at hok
    simp at hok
  | ok ph =>
    rw [hh] at hok
    simp only [insertUser, User.new] at hok
    by_cases hdup : store.any
      (fun v => v.email == payload.email || v.username == payload.username)
      = true
    · rw [if_pos hdup] at hok
      simp at hok
    · rw [if_neg hdup] at hok
      have hp := Except.ok.inj hok
      subst hp
      refine ⟨rfl, rfl, ?_, fun fields j => rfl⟩
      intro u hu
      rw [List.mem_append] at hu
      rcases hu with h | h
      · exact Or.inl h
      · right
        simp at h
        subst h
        rfl

/-- Witness for C10: a concrete registration stores and mints role
`"user"`. -/
theorem registration_assigns_user_role_witness :
    ({ token := mint_token (User.new "id9" 3 "c@x.com" "c" ("h" ++ "pw"))
         "sec" 3,
       user := UserPublic.ofUser
         (User.new "id9" 3 "c@x.com" "c" ("h" ++ "pw")) } :
      AuthResponse).user.role = "user" ∧
    ({ token := mint_token (User.new "id9" 3 "c@x.com" "c" ("h" ++ "pw"))
         "sec" 3,
       user := UserPublic.ofUser
         (User.new "id9" 3 "c@x.com" "c" ("h" ++ "pw")) } :
      AuthResponse).token.claims.role = "user" := by
  have h := registration_assigns_user_role (fun p => Except.ok ("h" ++ p))
    [] { email := "c@x.com", username := "c", password := "pw" }
    "sec" "id9" 3
    ([User.new "id9" 3 "c@x.com" "c" ("h" ++ "pw")],
     { token := mint_token (User.new "id9" 3 "c@x.com" "c" ("h" ++ "pw"))
         "sec" 3,
       user := UserPublic.ofUser
         (User.new "id9" 3 "c@x.com" "c" ("h" ++ "pw")) })
    rfl
  exact ⟨h.1, h.2.1⟩

end MissionControl
